import Mathlib

/-!
Verification of the multi-strategy content-extraction cascade of the
sys_design_crawlee repository.  The Lean definitions below are shallow
embeddings of the Python source:

  * `extract_content_hybrid`            — hybrid_extractor.py, `HybridContentExtractor.extract_content_hybrid`
  * `enhanceWithComprehensiveImages`    — hybrid_extractor.py, `HybridContentExtractor._enhance_with_comprehensive_images`
  * `check_blog_extraction_status`      — routes.py, `check_blog_extraction_status`
  * `mainPageSkip`                      — routes.py, `handle_main_page` (ledger skip decision)
  * `handleBlogPersist`                 — routes.py, `handle_blog_content` (persistence decision)
  * `handlePdfAttempt`                  — routes.py, `handle_pdf_url_directly` (single 200-response attempt)
  * `generate_blog_id` / `HybridContentExtractor.generate_blog_id`
                                        — routes.py / hybrid_extractor.py (MD5-based id)

Network and file-system effects are modelled as explicit inputs (strategy
outcomes, fetched image tags, download payloads) and explicit outputs
(which artifacts get written).  Python machine behaviour is modelled
exactly: `dict.get` via `Option`, Python truthiness via `pyTruthy`,
32-bit arithmetic in MD5 via `Nat` with explicit `% 2^32`.
-/

/-- Python truthiness of an optional string (`None` and `""` are falsy). -/
def pyTruthy : Option String → Bool
  | none => false
  | some s => !(s == "")

/-- Python truthiness of an optional integer (`None` and `0` are falsy). -/
def pyTruthyInt : Option Int → Bool
  | none => false
  | some n => !(n == 0)

/-- Does list `hay` start with `needle`? (helper for Python `in` on strings) -/
def leadMatch : List Char → List Char → Bool
  | [], _ => true
  | _ :: _, [] => false
  | a :: as, b :: bs => a == b && leadMatch as bs

/-- Python `needle in hay` for strings, over the character lists. -/
def subSearch (needle : List Char) : List Char → Bool
  | [] => needle.isEmpty
  | c :: rest => leadMatch needle (c :: rest) || subSearch needle rest

/-- Python `needle in hay` substring test on strings. -/
def strContains (hay needle : String) : Bool :=
  subSearch needle.data hay.data

/-- Python `s.endswith(suffix)`. -/
def strEndsWith (s suffix : String) : Bool :=
  leadMatch suffix.data.reverse s.data.reverse

/-- An image record as produced by `_process_image` (or carried by a prior
result).  `none` models an absent dictionary key. -/
structure ImageRecord where
  url : Option String := none
  originalUrl : Option String := none
  filename : String := ""
  altText : String := ""
  size : Nat := 0
  index : Nat := 0
deriving DecidableEq

/-- An `img` element found in the fetched/rendered HTML:
`src` is `img.get('src')`, `alt` is `img.get('alt', '')`. -/
structure ImgTag where
  src : Option String := none
  alt : String := ""
deriving DecidableEq

/-- A candidate result returned by one extraction strategy
(the dictionary built by `_extract_with_newspaper` / `_extract_with_readability`
/ `_extract_with_playwright`). -/
structure StratResult where
  text : String
  title : String := ""
  images : List ImageRecord := []
  extractionMethod : String := ""
deriving DecidableEq

/-- The HTML the supplementation pass works on:
the rendered page when a Playwright page is available, otherwise a plain
`aiohttp` fetch of the URL (usable only on HTTP 200); `failure` models an
exception while retrieving or parsing the HTML. -/
inductive HtmlSource where
  | fromPage (imgs : List ImgTag)
  | fromFetch (status : Nat) (imgs : List ImgTag)
  | failure
deriving DecidableEq

/-- The effect of `_process_image src url idx alt`: download/absolutize an
image reference; `none` models a skipped data-URL, a failed download or an
exception (caught with `continue` in the source). -/
def ProcessFn : Type := String → Nat → String → Option ImageRecord

/-- `existing_urls` of `_enhance_with_comprehensive_images`:
`{img.get('url', img.get('original_url', '')) for img in existing_images
  if img.get('url') or img.get('original_url')}`. -/
def existingUrls (imgs : List ImageRecord) : List String :=
  (imgs.filter (fun r => pyTruthy r.url || pyTruthy r.originalUrl)).map
    (fun r => r.url.getD (r.originalUrl.getD ""))

/-- The `new_images` loop of `_enhance_with_comprehensive_images`:
enumerate all img tags; process a tag iff its `src` is truthy and not
already among the winning strategy's resolved URLs; the index passed to
`_process_image` is `len(existing_images) + i`. -/
def newImages (tags : List ImgTag) (existing : List ImageRecord)
    (process : ProcessFn) : List ImageRecord :=
  tags.enum.filterMap (fun p =>
    match p.2.src with
    | none => none
    | some s =>
        if s ≠ "" ∧ s ∉ existingUrls existing then
          process s (existing.length + p.1) p.2.alt
        else
          none)

/-- `HybridContentExtractor._enhance_with_comprehensive_images`:
uses the rendered page when available, else a plain fetch (only a 200
response is used); on any exception the original result is returned
unchanged; otherwise appends the deduplicated new images to the result. -/
def enhanceWithComprehensiveImages (result : StratResult) (src : HtmlSource)
    (process : ProcessFn) : StratResult :=
  match src with
  | .failure => result
  | .fromFetch status imgs =>
      if status = 200 then
        { result with images := result.images ++ newImages imgs result.images process }
      else
        result
  | .fromPage imgs =>
      { result with images := result.images ++ newImages imgs result.images process }

/-- The outcome of invoking one extraction strategy: it either raised an
exception (message `msg`) or returned (`none` models Python `None`). -/
inductive StrategyOutcome where
  | exc (msg : String)
  | res (r : Option StratResult)
deriving DecidableEq

/-- The `extraction_results` dictionary of `extract_content_hybrid`.
`enhanceCalls` is ghost instrumentation counting invocations of the
image-supplementation pass (not a key of the Python dictionary). -/
structure ExtractionResults where
  url : String
  methodsTried : List String := []
  methodsSuccessful : List String := []
  methodsFailed : List String := []
  finalResult : Option StratResult := none
  extractionQuality : String := "unknown"
  errors : List String := []
  enhanceCalls : Nat := 0
deriving DecidableEq

/-- One strategy block of `extract_content_hybrid` (the try/except around
strategy `name`): returns the updated accumulator and whether the cascade
accepted this strategy's result (and hence returns).  `label` is the
capitalised prefix used in error strings, `quality` the tier this strategy
yields when it passes the 500-character gate. -/
def tryStrategy (name label quality : String) (outcome : StrategyOutcome)
    (env : HtmlSource) (process : ProcessFn)
    (er : ExtractionResults) : ExtractionResults × Bool :=
  match outcome with
  | .exc msg =>
      ({ er with
          methodsTried := er.methodsTried ++ [name],
          methodsFailed := er.methodsFailed ++ [name],
          errors := er.errors ++ [label ++ ": " ++ msg] }, false)
  | .res none =>
      ({ er with
          methodsTried := er.methodsTried ++ [name],
          methodsFailed := er.methodsFailed ++ [name],
          errors := er.errors ++ [label ++ ": No content extracted"] }, false)
  | .res (some r) =>
      if r.text = "" then
        ({ er with
            methodsTried := er.methodsTried ++ [name],
            methodsFailed := er.methodsFailed ++ [name],
            errors := er.errors ++ [label ++ ": No content extracted"] }, false)
      else
        let contentLength := r.text.length
        let enhanced := enhanceWithComprehensiveImages r env process
        let er := { er with enhanceCalls := er.enhanceCalls + 1 }
        if contentLength ≥ 500 then
          ({ er with
              methodsTried := er.methodsTried ++ [name],
              methodsSuccessful := er.methodsSuccessful ++ [name],
              finalResult := some enhanced,
              extractionQuality := quality }, true)
        else
          ({ er with
              methodsTried := er.methodsTried ++ [name],
              methodsFailed := er.methodsFailed ++ [name],
              errors := er.errors ++
                [label ++ ": Insufficient content (" ++ toString contentLength ++ " chars)"] }, false)

/-- The sentinel failure result installed when every strategy fails. -/
def sentinelResult : StratResult :=
  { text := "EXTRACTION_FAILED_ALL_METHODS",
    title := "Extraction Failed",
    images := [],
    extractionMethod := "none" }

/-- `HybridContentExtractor.extract_content_hybrid`: the three-strategy
cascade.  Strategy outcomes and the HTML seen by each supplementation call
are explicit inputs; `pagePresent` is whether a Playwright page was passed
(strategy 3 runs only if it was). -/
def extract_content_hybrid (url : String)
    (newspaperOutcome readabilityOutcome playwrightOutcome : StrategyOutcome)
    (pagePresent : Bool) (env1 env2 env3 : HtmlSource)
    (process : ProcessFn) : ExtractionResults :=
  let er0 : ExtractionResults := { url := url }
  let allFailed : ExtractionResults → ExtractionResults := fun er =>
    { er with finalResult := some sentinelResult, extractionQuality := "failed" }
  let s1 := tryStrategy "newspaper3k" "Newspaper3k" "high" newspaperOutcome env1 process er0
  if s1.2 then s1.1 else
  let s2 := tryStrategy "readability" "Readability" "medium" readabilityOutcome env2 process s1.1
  if s2.2 then s2.1 else
  if pagePresent then
    let s3 := tryStrategy "playwright" "Playwright" "low" playwrightOutcome env3 process s2.1
    if s3.2 then s3.1 else allFailed s3.1
  else
    allFailed s2.1

/-- Which artifacts `handle_blog_content` writes for a finished cascade
(routes.py): a sentinel, empty or missing final result gets only the
extraction-log record; otherwise the text file, the per-image records,
the metadata document, the extraction log and the catalog row are written. -/
structure PersistDecision where
  wroteExtractionLog : Bool
  wroteTextFile : Bool
  wroteImages : Bool
  wroteMetadata : Bool
  wroteCatalogRow : Bool
deriving DecidableEq

/-- `handle_blog_content`, from the `final_result = extraction_results['final_result']`
check onwards: if the final result is missing, has falsy text, or carries the
failure sentinel, only the extraction log is saved and the handler returns;
otherwise all artifacts are written (the images directory only when the
result carries image records). -/
def handleBlogPersist (er : ExtractionResults) : PersistDecision :=
  match er.finalResult with
  | none =>
      { wroteExtractionLog := true, wroteTextFile := false, wroteImages := false,
        wroteMetadata := false, wroteCatalogRow := false }
  | some r =>
      if r.text = "" ∨ r.text = "EXTRACTION_FAILED_ALL_METHODS" then
        { wroteExtractionLog := true, wroteTextFile := false, wroteImages := false,
          wroteMetadata := false, wroteCatalogRow := false }
      else
        { wroteExtractionLog := true, wroteTextFile := true,
          wroteImages := !r.images.isEmpty, wroteMetadata := true,
          wroteCatalogRow := true }

/-- A row of the `blog_content` table as read by `check_blog_extraction_status`
(`content_length` may be NULL). -/
structure LedgerEntry where
  extractionQuality : String
  contentLength : Option Int
deriving DecidableEq

/-- The ledger lookup for a URL: the query raised, found no row, or found one. -/
inductive LedgerQuery where
  | err
  | missing
  | found (e : LedgerEntry)
deriving DecidableEq

/-- The dictionary returned by `check_blog_extraction_status`. -/
structure ExtractionStatus where
  entryExists : Bool
  successful : Bool
  reason : String
deriving DecidableEq

/-- `check_blog_extraction_status` (routes.py): an extraction counts as
successful iff the row's quality is not `'failed'` and its content length is
truthy and greater than 100; a missing row or a database error counts as not
successful. -/
def check_blog_extraction_status (q : LedgerQuery) : ExtractionStatus :=
  match q with
  | .err => { entryExists := false, successful := false, reason := "error" }
  | .missing => { entryExists := false, successful := false, reason := "no_record" }
  | .found e =>
      let isSuccessful :=
        !(e.extractionQuality == "failed") &&
        pyTruthyInt e.contentLength &&
        (match e.contentLength with
         | none => false
         | some n => decide (n > 100))
      { entryExists := true, successful := isSuccessful,
        reason := if isSuccessful then "successful" else "failed_extraction" }

/-- The skip decision of `handle_main_page` (routes.py): with
`FORCE_REEXTRACT_BLOGS` set the URL always proceeds; otherwise it is skipped
iff `check_blog_extraction_status` reports a successful prior extraction.
`true` means the URL is skipped (`continue`). -/
def mainPageSkip (force : Bool) (q : LedgerQuery) : Bool :=
  if force then false else (check_blog_extraction_status q).successful

/-- One HTTP-200 download attempt inside `handle_pdf_url_directly`. -/
structure PdfDownload where
  status : Nat
  contentType : String
  payload : List Nat
deriving DecidableEq

/-- What the PDF path does with one download attempt. -/
structure PdfOutcome where
  savedFile : Bool
  warnedInvalidMagic : Bool
  wroteCatalogEntry : Bool
deriving DecidableEq

/-- The PDF magic marker `b'%PDF'`. -/
def pdfMagic : List Nat := [0x25, 0x50, 0x44, 0x46]

/-- `handle_pdf_url_directly` (routes.py), the body handling one response:
on HTTP 200 with a PDF-looking content type or URL the payload is written to
disk; the magic bytes are inspected only when the file exceeds 1000 bytes,
and a mismatch merely logs a warning; the `pdf_files` metadata row is then
saved unconditionally. -/
def handlePdfAttempt (url : String) (d : PdfDownload) : PdfOutcome :=
  if d.status = 200 then
    if strContains d.contentType "application/pdf" || strEndsWith url ".pdf" ||
        strContains url "arxiv.org/pdf" then
      let fileSize := d.payload.length
      let warned := decide (fileSize > 1000) && !(d.payload.take 4 == pdfMagic)
      { savedFile := true, warnedInvalidMagic := warned, wroteCatalogEntry := true }
    else
      { savedFile := false, warnedInvalidMagic := false, wroteCatalogEntry := false }
  else
    { savedFile := false, warnedInvalidMagic := false, wroteCatalogEntry := false }

/-- UTF-8 encoding of one character as byte values (Python `str.encode('utf-8')`). -/
def utf8Bytes (c : Char) : List Nat :=
  let n := c.toNat
  if n < 0x80 then [n]
  else if n < 0x800 then
    [0xC0 ||| (n >>> 6), 0x80 ||| (n &&& 0x3F)]
  else if n < 0x10000 then
    [0xE0 ||| (n >>> 12), 0x80 ||| ((n >>> 6) &&& 0x3F), 0x80 ||| (n &&& 0x3F)]
  else
    [0xF0 ||| (n >>> 18), 0x80 ||| ((n >>> 12) &&& 0x3F),
     0x80 ||| ((n >>> 6) &&& 0x3F), 0x80 ||| (n &&& 0x3F)]

/-- UTF-8 encoding of a string as byte values. -/
def strToUtf8 (s : String) : List Nat := (s.data.map utf8Bytes).flatten

namespace MD5

/-- Truncation to 32 bits. -/
def mask32 (x : Nat) : Nat := x % 2^32

/-- 32-bit left rotation (argument assumed < 2^32). -/
def rotl (x s : Nat) : Nat := mask32 (x <<< s) ||| (x >>> (32 - s))

/-- The 64 sine-derived round constants of MD5. -/
def K : List Nat :=
  [0xd76aa478, 0xe8c7b756, 0x242070db, 0xc1bdceee,
   0xf57c0faf, 0x4787c62a, 0xa8304613, 0xfd469501,
   0x698098d8, 0x8b44f7af, 0xffff5bb1, 0x895cd7be,
   0x6b901122, 0xfd987193, 0xa679438e, 0x49b40821,
   0xf61e2562, 0xc040b340, 0x265e5a51, 0xe9b6c7aa,
   0xd62f105d, 0x02441453, 0xd8a1e681, 0xe7d3fbc8,
   0x21e1cde6, 0xc33707d6, 0xf4d50d87, 0x455a14ed,
   0xa9e3e905, 0xfcefa3f8, 0x676f02d9, 0x8d2a4c8a,
   0xfffa3942, 0x8771f681, 0x6d9d6122, 0xfde5380c,
   0xa4beea44, 0x4bdecfa9, 0xf6bb4b60, 0xbebfbc70,
   0x289b7ec6, 0xeaa127fa, 0xd4ef3085, 0x04881d05,
   0xd9d4d039, 0xe6db99e5, 0x1fa27cf8, 0xc4ac5665,
   0xf4292244, 0x432aff97, 0xab9423a7, 0xfc93a039,
   0x655b59c3, 0x8f0ccc92, 0xffeff47d, 0x85845dd1,
   0x6fa87e4f, 0xfe2ce6e0, 0xa3014314, 0x4e0811a1,
   0xf7537e82, 0xbd3af235, 0x2ad7d2bb, 0xeb86d391]

/-- The 64 per-round left-rotation amounts of MD5. -/
def S : List Nat :=
  [7, 12, 17, 22, 7, 12, 17, 22, 7, 12, 17, 22, 7, 12, 17, 22,
   5, 9, 14, 20, 5, 9, 14, 20, 5, 9, 14, 20, 5, 9, 14, 20,
   4, 11, 16, 23, 4, 11, 16, 23, 4, 11, 16, 23, 4, 11, 16, 23,
   6, 10, 15, 21, 6, 10, 15, 21, 6, 10, 15, 21, 6, 10, 15, 21]

/-- The little-endian 32-bit word at index `g` of a 64-byte chunk. -/
def word (chunk : List Nat) (g : Nat) : Nat :=
  chunk.getD (4 * g) 0 + 256 * chunk.getD (4 * g + 1) 0 +
  65536 * chunk.getD (4 * g + 2) 0 + 16777216 * chunk.getD (4 * g + 3) 0

/-- The four-word MD5 state. -/
structure St where
  a : Nat
  b : Nat
  c : Nat
  d : Nat
deriving DecidableEq

/-- One of the 64 MD5 rounds on one chunk. -/
def step (chunk : List Nat) (i : Nat) (st : St) : St :=
  let fg : Nat × Nat :=
    if i < 16 then
      ((st.b &&& st.c) ||| ((st.b ^^^ 0xFFFFFFFF) &&& st.d), i)
    else if i < 32 then
      ((st.d &&& st.b) ||| ((st.d ^^^ 0xFFFFFFFF) &&& st.c), (5 * i + 1) % 16)
    else if i < 48 then
      (st.b ^^^ st.c ^^^ st.d, (3 * i + 5) % 16)
    else
      (st.c ^^^ (st.b ||| (st.d ^^^ 0xFFFFFFFF)), (7 * i) % 16)
  let f := mask32 (fg.1 + st.a + K.getD i 0 + word chunk fg.2)
  { a := st.d, d := st.c, c := st.b, b := mask32 (st.b + rotl f (S.getD i 0)) }

/-- Compression of one 64-byte chunk into the running state. -/
def compress (st0 : St) (chunk : List Nat) : St :=
  let st := (List.range 64).foldl (fun st i => step chunk i st) st0
  { a := mask32 (st0.a + st.a), b := mask32 (st0.b + st.b),
    c := mask32 (st0.c + st.c), d := mask32 (st0.d + st.d) }

/-- MD5 padding: `0x80`, zeros to 56 mod 64, then the 64-bit little-endian
bit length. -/
def padMessage (msg : List Nat) : List Nat :=
  let lenBits := (8 * msg.length) % 2^64
  let zeros := (120 - (msg.length + 1) % 64) % 64
  msg ++ [0x80] ++ List.replicate zeros 0 ++
    (List.range 8).map (fun i => lenBits / 2^(8 * i) % 256)

/-- Fold the chunks of a padded message into the state, 64 bytes at a time. -/
def processChunks : Nat → List Nat → St → St
  | 0, _, st => st
  | n + 1, msg, st => processChunks n (msg.drop 64) (compress st (msg.take 64))

/-- The initial MD5 state. -/
def initSt : St := { a := 0x67452301, b := 0xefcdab89, c := 0x98badcfe, d := 0x10325476 }

/-- The final MD5 state for a byte message. -/
def md5St (msg : List Nat) : St :=
  let padded := padMessage msg
  processChunks (padded.length / 64) padded initSt

/-- Little-endian byte serialisation of one 32-bit word. -/
def wordBytesLE (w : Nat) : List Nat :=
  [w % 256, w / 256 % 256, w / 65536 % 256, w / 16777216 % 256]

/-- The 16-byte MD5 digest. -/
def digestBytes (msg : List Nat) : List Nat :=
  let st := md5St msg
  wordBytesLE st.a ++ wordBytesLE st.b ++ wordBytesLE st.c ++ wordBytesLE st.d

/-- A lowercase hexadecimal digit character. -/
def hexDigitChar (n : Nat) : Char :=
  if n < 10 then Char.ofNat (48 + n) else Char.ofNat (87 + n)

/-- Lowercase hexadecimal rendering of a byte list (two digits per byte). -/
def bytesToHexChars : List Nat → List Char
  | [] => []
  | b :: bs => hexDigitChar (b / 16 % 16) :: hexDigitChar (b % 16) :: bytesToHexChars bs

/-- `hashlib.md5(msg).hexdigest()` as a character list. -/
def hexdigest (msg : List Nat) : List Char := bytesToHexChars (digestBytes msg)

end MD5

/-- `generate_blog_id` (routes.py): the first 12 hexadecimal characters of the
MD5 digest of the UTF-8 encoding of `url + "_" + title`. -/
def generate_blog_id (url title : String) : String :=
  String.mk ((MD5.hexdigest (strToUtf8 (url ++ "_" ++ title))).take 12)

/-- `HybridContentExtractor.generate_blog_id` (hybrid_extractor.py): the first
12 hexadecimal characters of the MD5 digest of the UTF-8 encoding of
`url + "_" + title`. -/
def HybridContentExtractor.generate_blog_id (url title : String) : String :=
  String.mk ((MD5.hexdigest (strToUtf8 (url ++ "_" ++ title))).take 12)

/-- The acceptance condition of one strategy block: the strategy returned a
truthy result whose text is truthy and at least 500 characters long. -/
def passesGate : StrategyOutcome → Bool
  | .res (some r) => !(r.text == "") && decide (500 ≤ r.text.length)
  | _ => false

/-- Whether a strategy outcome carries non-empty text (the condition under
which the block calls the image-supplementation pass). -/
def yieldsText : StrategyOutcome → Bool
  | .res (some r) => !(r.text == "")
  | _ => false

theorem tryStrategy_snd (name label quality : String) (o : StrategyOutcome)
    (env : HtmlSource) (p : ProcessFn) (er : ExtractionResults) :
    (tryStrategy name label quality o env p er).2 = passesGate o := by
  cases o with
  | exc msg => simp [tryStrategy, passesGate]
  | res r =>
    cases r with
    | none => simp [tryStrategy, passesGate]
    | some r =>
      by_cases htext : r.text = ""
      · simp [tryStrategy, passesGate, htext]
      · by_cases hlen : 500 ≤ r.text.length
        · simp [tryStrategy, passesGate, htext, hlen]
        · simp [tryStrategy, passesGate, htext, hlen]

theorem tryStrategy_tried (name label quality : String) (o : StrategyOutcome)
    (env : HtmlSource) (p : ProcessFn) (er : ExtractionResults) :
    (tryStrategy name label quality o env p er).1.methodsTried =
      er.methodsTried ++ [name] := by
  cases o with
  | exc msg => simp [tryStrategy]
  | res r =>
    cases r with
    | none => simp [tryStrategy]
    | some r =>
      by_cases htext : r.text = ""
      · simp [tryStrategy, htext]
      · by_cases hlen : 500 ≤ r.text.length
        · simp [tryStrategy, htext, hlen]
        · simp [tryStrategy, htext, hlen]

theorem tryStrategy_calls (name label quality : String) (o : StrategyOutcome)
    (env : HtmlSource) (p : ProcessFn) (er : ExtractionResults) :
    (tryStrategy name label quality o env p er).1.enhanceCalls =
      er.enhanceCalls + (if yieldsText o then 1 else 0) := by
  cases o with
  | exc msg => simp [tryStrategy, yieldsText]
  | res r =>
    cases r with
    | none => simp [tryStrategy, yieldsText]
    | some r =>
      by_cases htext : r.text = ""
      · simp [tryStrategy, yieldsText, htext]
      · by_cases hlen : 500 ≤ r.text.length
        · simp [tryStrategy, yieldsText, htext, hlen]
        · simp [tryStrategy, yieldsText, htext, hlen]

theorem tryStrategy_reject (name label quality : String) (o : StrategyOutcome)
    (env : HtmlSource) (p : ProcessFn) (er : ExtractionResults)
    (h : passesGate o = false) :
    (tryStrategy name label quality o env p er).1.methodsFailed =
        er.methodsFailed ++ [name] ∧
    (tryStrategy name label quality o env p er).1.methodsSuccessful =
        er.methodsSuccessful ∧
    (tryStrategy name label quality o env p er).1.finalResult = er.finalResult ∧
    (tryStrategy name label quality o env p er).1.extractionQuality =
        er.extractionQuality := by
  cases o with
  | exc msg => simp [tryStrategy]
  | res r =>
    cases r with
    | none => simp [tryStrategy]
    | some r =>
      by_cases htext : r.text = ""
      · simp [tryStrategy, htext]
      · have hlen : ¬ 500 ≤ r.text.length := by
          simp [passesGate, htext] at h
          omega
        simp [tryStrategy, htext, hlen]

theorem tryStrategy_accept (name label quality : String) (o : StrategyOutcome)
    (env : HtmlSource) (p : ProcessFn) (er : ExtractionResults)
    (h : passesGate o = true) :
    (tryStrategy name label quality o env p er).1.methodsSuccessful =
        er.methodsSuccessful ++ [name] ∧
    (tryStrategy name label quality o env p er).1.methodsFailed =
        er.methodsFailed ∧
    (tryStrategy name label quality o env p er).1.extractionQuality = quality ∧
    ∃ r, o = .res (some r) ∧ 500 ≤ r.text.length ∧
      (tryStrategy name label quality o env p er).1.finalResult =
        some (enhanceWithComprehensiveImages r env p) := by
  cases o with
  | exc msg => simp [passesGate] at h
  | res r =>
    cases r with
    | none => simp [passesGate] at h
    | some r =>
      simp [passesGate] at h
      obtain ⟨htext, hlen⟩ := h
      refine ⟨?_, ?_, ?_, r, rfl, hlen, ?_⟩ <;>
        simp [tryStrategy, htext, hlen]

/-- The supplementation pass never changes the extracted text. -/
theorem enhance_text (r : StratResult) (env : HtmlSource) (p : ProcessFn) :
    (enhanceWithComprehensiveImages r env p).text = r.text := by
  cases env with
  | failure => rfl
  | fromPage imgs => rfl
  | fromFetch status imgs =>
    by_cases h : status = 200 <;> simp [enhanceWithComprehensiveImages, h]

section CascadeShape

variable (url : String) (o1 o2 o3 : StrategyOutcome) (page : Bool)
variable (e1 e2 e3 : HtmlSource) (p : ProcessFn)

theorem cascade_pass1 (hp1 : passesGate o1 = true) :
    extract_content_hybrid url o1 o2 o3 page e1 e2 e3 p =
      (tryStrategy "newspaper3k" "Newspaper3k" "high" o1 e1 p { url := url }).1 := by
  simp only [extract_content_hybrid, tryStrategy_snd, hp1, if_true]

theorem cascade_pass2 (hp1 : passesGate o1 = false) (hp2 : passesGate o2 = true) :
    extract_content_hybrid url o1 o2 o3 page e1 e2 e3 p =
      (tryStrategy "readability" "Readability" "medium" o2 e2 p
        (tryStrategy "newspaper3k" "Newspaper3k" "high" o1 e1 p { url := url }).1).1 := by
  simp only [extract_content_hybrid, tryStrategy_snd, hp1, hp2, if_true,
    Bool.false_eq_true, if_false]

theorem cascade_pass3 (hp1 : passesGate o1 = false) (hp2 : passesGate o2 = false)
    (hpage : page = true) (hp3 : passesGate o3 = true) :
    extract_content_hybrid url o1 o2 o3 page e1 e2 e3 p =
      (tryStrategy "playwright" "Playwright" "low" o3 e3 p
        (tryStrategy "readability" "Readability" "medium" o2 e2 p
          (tryStrategy "newspaper3k" "Newspaper3k" "high" o1 e1 p { url := url }).1).1).1 := by
  simp only [extract_content_hybrid, tryStrategy_snd, hp1, hp2, hp3, hpage, if_true,
    Bool.false_eq_true, if_false]

theorem cascade_allfail_page (hp1 : passesGate o1 = false) (hp2 : passesGate o2 = false)
    (hpage : page = true) (hp3 : passesGate o3 = false) :
    extract_content_hybrid url o1 o2 o3 page e1 e2 e3 p =
      { (tryStrategy "playwright" "Playwright" "low" o3 e3 p
          (tryStrategy "readability" "Readability" "medium" o2 e2 p
            (tryStrategy "newspaper3k" "Newspaper3k" "high" o1 e1 p { url := url }).1).1).1 with
        finalResult := some sentinelResult, extractionQuality := "failed" } := by
  simp only [extract_content_hybrid, tryStrategy_snd, hp1, hp2, hp3, hpage, if_true,
    Bool.false_eq_true, if_false]

theorem cascade_allfail_nopage (hp1 : passesGate o1 = false) (hp2 : passesGate o2 = false)
    (hpage : page = false) :
    extract_content_hybrid url o1 o2 o3 page e1 e2 e3 p =
      { (tryStrategy "readability" "Readability" "medium" o2 e2 p
          (tryStrategy "newspaper3k" "Newspaper3k" "high" o1 e1 p { url := url }).1).1 with
        finalResult := some sentinelResult, extractionQuality := "failed" } := by
  simp only [extract_content_hybrid, tryStrategy_snd, hp1, hp2, hpage,
    Bool.false_eq_true, if_false]

end CascadeShape

theorem tryStrategy_accept_eq (name label quality : String) (r : StratResult)
    (env : HtmlSource) (p : ProcessFn) (er : ExtractionResults)
    (htext : r.text ≠ "") (hlen : 500 ≤ r.text.length) :
    tryStrategy name label quality (.res (some r)) env p er =
      ({ er with
          methodsTried := er.methodsTried ++ [name],
          methodsSuccessful := er.methodsSuccessful ++ [name],
          finalResult := some (enhanceWithComprehensiveImages r env p),
          extractionQuality := quality,
          enhanceCalls := er.enhanceCalls + 1 }, true) := by
  simp [tryStrategy, htext, hlen]

theorem tryStrategy_sub_eq (name label quality : String) (r : StratResult)
    (env : HtmlSource) (p : ProcessFn) (er : ExtractionResults)
    (htext : r.text ≠ "") (hlen : r.text.length < 500) :
    tryStrategy name label quality (.res (some r)) env p er =
      ({ er with
          methodsTried := er.methodsTried ++ [name],
          methodsFailed := er.methodsFailed ++ [name],
          errors := er.errors ++
            [label ++ ": Insufficient content (" ++ toString r.text.length ++ " chars)"],
          enhanceCalls := er.enhanceCalls + 1 }, false) := by
  have h : ¬ 500 ≤ r.text.length := by omega
  simp [tryStrategy, htext, h]

theorem tryStrategy_exc_eq (name label quality : String) (msg : String)
    (env : HtmlSource) (p : ProcessFn) (er : ExtractionResults) :
    tryStrategy name label quality (.exc msg) env p er =
      ({ er with
          methodsTried := er.methodsTried ++ [name],
          methodsFailed := er.methodsFailed ++ [name],
          errors := er.errors ++ [label ++ ": " ++ msg] }, false) := by
  simp [tryStrategy]

/-- A string of at least 500 characters is not empty. -/
theorem text_ne_of_len (s : String) (h : 500 ≤ s.length) : s ≠ "" := by
  intro heq
  rw [heq] at h
  simp [String.length] at h

section FieldLemmas

variable (name label quality : String) (o : StrategyOutcome)
variable (env : HtmlSource) (p : ProcessFn) (er : ExtractionResults)

theorem tryStrategy_failed_of_reject (hg : passesGate o = false) :
    (tryStrategy name label quality o env p er).1.methodsFailed =
      er.methodsFailed ++ [name] :=
  (tryStrategy_reject name label quality o env p er hg).1

theorem tryStrategy_succ_of_reject (hg : passesGate o = false) :
    (tryStrategy name label quality o env p er).1.methodsSuccessful =
      er.methodsSuccessful :=
  (tryStrategy_reject name label quality o env p er hg).2.1

theorem tryStrategy_final_of_reject (hg : passesGate o = false) :
    (tryStrategy name label quality o env p er).1.finalResult = er.finalResult :=
  (tryStrategy_reject name label quality o env p er hg).2.2.1

theorem tryStrategy_quality_of_reject (hg : passesGate o = false) :
    (tryStrategy name label quality o env p er).1.extractionQuality =
      er.extractionQuality :=
  (tryStrategy_reject name label quality o env p er hg).2.2.2

theorem tryStrategy_succ_of_accept (hg : passesGate o = true) :
    (tryStrategy name label quality o env p er).1.methodsSuccessful =
      er.methodsSuccessful ++ [name] :=
  (tryStrategy_accept name label quality o env p er hg).1

theorem tryStrategy_failed_of_accept (hg : passesGate o = true) :
    (tryStrategy name label quality o env p er).1.methodsFailed =
      er.methodsFailed :=
  (tryStrategy_accept name label quality o env p er hg).2.1

theorem tryStrategy_quality_of_accept (hg : passesGate o = true) :
    (tryStrategy name label quality o env p er).1.extractionQuality = quality :=
  (tryStrategy_accept name label quality o env p er hg).2.2.1

end FieldLemmas

/-- The tried/successful/failed method lists of the cascade, in every case. -/
theorem cascade_lists (url : String) (o1 o2 o3 : StrategyOutcome) (page : Bool)
    (e1 e2 e3 : HtmlSource) (p : ProcessFn) :
    (extract_content_hybrid url o1 o2 o3 page e1 e2 e3 p).methodsTried =
      (if passesGate o1 then ["newspaper3k"]
       else if passesGate o2 then ["newspaper3k", "readability"]
       else if page then ["newspaper3k", "readability", "playwright"]
       else ["newspaper3k", "readability"]) ∧
    (extract_content_hybrid url o1 o2 o3 page e1 e2 e3 p).methodsSuccessful =
      (if passesGate o1 then ["newspaper3k"]
       else if passesGate o2 then ["readability"]
       else if page && passesGate o3 then ["playwright"]
       else []) ∧
    (extract_content_hybrid url o1 o2 o3 page e1 e2 e3 p).methodsFailed =
      (if passesGate o1 then []
       else if passesGate o2 then ["newspaper3k"]
       else if page then
         (if passesGate o3 then ["newspaper3k", "readability"]
          else ["newspaper3k", "readability", "playwright"])
       else ["newspaper3k", "readability"]) := by
  cases hp1 : passesGate o1 with
  | true =>
    rw [cascade_pass1 url o1 o2 o3 page e1 e2 e3 p hp1]
    simp [tryStrategy_tried, tryStrategy_succ_of_accept, tryStrategy_failed_of_accept, hp1]
  | false =>
    cases hp2 : passesGate o2 with
    | true =>
      rw [cascade_pass2 url o1 o2 o3 page e1 e2 e3 p hp1 hp2]
      simp [tryStrategy_tried, tryStrategy_succ_of_accept, tryStrategy_failed_of_accept,
        tryStrategy_succ_of_reject, tryStrategy_failed_of_reject, hp1, hp2]
    | false =>
      cases hpage : page with
      | false =>
        rw [cascade_allfail_nopage url o1 o2 o3 false e1 e2 e3 p hp1 hp2 rfl]
        simp [tryStrategy_tried, tryStrategy_succ_of_reject, tryStrategy_failed_of_reject,
          hp1, hp2]
      | true =>
        cases hp3 : passesGate o3 with
        | true =>
          rw [cascade_pass3 url o1 o2 o3 true e1 e2 e3 p hp1 hp2 rfl hp3]
          simp [tryStrategy_tried, tryStrategy_succ_of_accept, tryStrategy_failed_of_accept,
            tryStrategy_succ_of_reject, tryStrategy_failed_of_reject, hp1, hp2, hp3]
        | false =>
          rw [cascade_allfail_page url o1 o2 o3 true e1 e2 e3 p hp1 hp2 rfl hp3]
          simp [tryStrategy_tried, tryStrategy_succ_of_reject, tryStrategy_failed_of_reject,
            hp1, hp2, hp3]

/-- The quality tier of the cascade, in every case. -/
theorem cascade_quality (url : String) (o1 o2 o3 : StrategyOutcome) (page : Bool)
    (e1 e2 e3 : HtmlSource) (p : ProcessFn) :
    (extract_content_hybrid url o1 o2 o3 page e1 e2 e3 p).extractionQuality =
      (if passesGate o1 then "high"
       else if passesGate o2 then "medium"
       else if page && passesGate o3 then "low"
       else "failed") := by
  cases hp1 : passesGate o1 with
  | true =>
    rw [cascade_pass1 url o1 o2 o3 page e1 e2 e3 p hp1]
    simp [tryStrategy_quality_of_accept, hp1]
  | false =>
    cases hp2 : passesGate o2 with
    | true =>
      rw [cascade_pass2 url o1 o2 o3 page e1 e2 e3 p hp1 hp2]
      simp [tryStrategy_quality_of_accept, hp2]
    | false =>
      cases hpage : page with
      | false =>
        rw [cascade_allfail_nopage url o1 o2 o3 false e1 e2 e3 p hp1 hp2 rfl]
        simp
      | true =>
        cases hp3 : passesGate o3 with
        | true =>
          rw [cascade_pass3 url o1 o2 o3 true e1 e2 e3 p hp1 hp2 rfl hp3]
          simp [tryStrategy_quality_of_accept, hp3]
        | false =>
          rw [cascade_allfail_page url o1 o2 o3 true e1 e2 e3 p hp1 hp2 rfl hp3]
          simp [hp3]

/-- A `failed`-tier cascade always carries the sentinel result. -/
theorem cascade_failed_final (url : String) (o1 o2 o3 : StrategyOutcome) (page : Bool)
    (e1 e2 e3 : HtmlSource) (p : ProcessFn)
    (h : (extract_content_hybrid url o1 o2 o3 page e1 e2 e3 p).extractionQuality = "failed") :
    (extract_content_hybrid url o1 o2 o3 page e1 e2 e3 p).finalResult =
      some sentinelResult := by
  have hq := cascade_quality url o1 o2 o3 page e1 e2 e3 p
  cases hp1 : passesGate o1 with
  | true => rw [hq, hp1] at h; simp at h
  | false =>
    cases hp2 : passesGate o2 with
    | true => rw [hq, hp1, hp2] at h; simp at h
    | false =>
      cases hpage : page with
      | false =>
        rw [cascade_allfail_nopage url o1 o2 o3 false e1 e2 e3 p hp1 hp2 rfl]
      | true =>
        cases hp3 : passesGate o3 with
        | true => rw [hq, hp1, hp2, hpage, hp3] at h; simp at h
        | false =>
          rw [cascade_allfail_page url o1 o2 o3 true e1 e2 e3 p hp1 hp2 rfl hp3]

/-- A non-`failed` cascade carries an enhanced strategy result whose raw text
passed the 500-character gate. -/
theorem cascade_accepted_final (url : String) (o1 o2 o3 : StrategyOutcome) (page : Bool)
    (e1 e2 e3 : HtmlSource) (p : ProcessFn)
    (h : (extract_content_hybrid url o1 o2 o3 page e1 e2 e3 p).extractionQuality ≠ "failed") :
    ∃ r env, 500 ≤ r.text.length ∧
      (extract_content_hybrid url o1 o2 o3 page e1 e2 e3 p).finalResult =
        some (enhanceWithComprehensiveImages r env p) := by
  have hq := cascade_quality url o1 o2 o3 page e1 e2 e3 p
  cases hp1 : passesGate o1 with
  | true =>
    rw [cascade_pass1 url o1 o2 o3 page e1 e2 e3 p hp1]
    obtain ⟨-, -, -, r, -, hlen, hfin⟩ :=
      tryStrategy_accept "newspaper3k" "Newspaper3k" "high" o1 e1 p { url := url } hp1
    exact ⟨r, e1, hlen, hfin⟩
  | false =>
    cases hp2 : passesGate o2 with
    | true =>
      rw [cascade_pass2 url o1 o2 o3 page e1 e2 e3 p hp1 hp2]
      obtain ⟨-, -, -, r, -, hlen, hfin⟩ :=
        tryStrategy_accept "readability" "Readability" "medium" o2 e2 p
          (tryStrategy "newspaper3k" "Newspaper3k" "high" o1 e1 p { url := url }).1 hp2
      exact ⟨r, e2, hlen, hfin⟩
    | false =>
      cases hpage : page with
      | false => rw [hq, hp1, hp2, hpage] at h; simp at h
      | true =>
        cases hp3 : passesGate o3 with
        | true =>
          rw [cascade_pass3 url o1 o2 o3 true e1 e2 e3 p hp1 hp2 rfl hp3]
          obtain ⟨-, -, -, r, -, hlen, hfin⟩ :=
            tryStrategy_accept "playwright" "Playwright" "low" o3 e3 p
              (tryStrategy "readability" "Readability" "medium" o2 e2 p
                (tryStrategy "newspaper3k" "Newspaper3k" "high" o1 e1 p { url := url }).1).1 hp3
          exact ⟨r, e3, hlen, hfin⟩
        | false => rw [hq, hp1, hp2, hpage, hp3] at h; simp at h

/-- How often the image-supplementation pass runs, in every case. -/
theorem cascade_calls (url : String) (o1 o2 o3 : StrategyOutcome) (page : Bool)
    (e1 e2 e3 : HtmlSource) (p : ProcessFn) :
    (extract_content_hybrid url o1 o2 o3 page e1 e2 e3 p).enhanceCalls =
      (if yieldsText o1 then 1 else 0) +
      (if passesGate o1 then 0 else
        (if yieldsText o2 then 1 else 0) +
        (if passesGate o2 then 0 else
          if page then (if yieldsText o3 then 1 else 0) else 0)) := by
  cases hp1 : passesGate o1 with
  | true =>
    rw [cascade_pass1 url o1 o2 o3 page e1 e2 e3 p hp1]
    simp [tryStrategy_calls]
  | false =>
    cases hp2 : passesGate o2 with
    | true =>
      rw [cascade_pass2 url o1 o2 o3 page e1 e2 e3 p hp1 hp2]
      simp [tryStrategy_calls]
    | false =>
      cases hpage : page with
      | false =>
        rw [cascade_allfail_nopage url o1 o2 o3 false e1 e2 e3 p hp1 hp2 rfl]
        simp [tryStrategy_calls]
      | true =>
        cases hp3 : passesGate o3 with
        | true =>
          rw [cascade_pass3 url o1 o2 o3 true e1 e2 e3 p hp1 hp2 rfl hp3]
          simp [tryStrategy_calls]
          omega
        | false =>
          rw [cascade_allfail_page url o1 o2 o3 true e1 e2 e3 p hp1 hp2 rfl hp3]
          simp [tryStrategy_calls]
          omega

/-- A strategy block never drops previously recorded errors. -/
theorem tryStrategy_errors_mono (name label quality : String) (o : StrategyOutcome)
    (env : HtmlSource) (p : ProcessFn) (er : ExtractionResults) (x : String)
    (hx : x ∈ er.errors) :
    x ∈ (tryStrategy name label quality o env p er).1.errors := by
  cases o with
  | exc msg => simp [tryStrategy, hx]
  | res r =>
    cases r with
    | none => simp [tryStrategy, hx]
    | some r =>
      by_cases htext : r.text = ""
      · simp [tryStrategy, htext, hx]
      · by_cases hlen : 500 ≤ r.text.length
        · simp [tryStrategy, htext, hlen, hx]
        · simp [tryStrategy, htext, hlen, hx]

/-- An accepted strategy passed the gate, so its text was non-empty. -/
theorem yieldsText_of_passes (o : StrategyOutcome) (h : passesGate o = true) :
    yieldsText o = true := by
  cases o with
  | exc msg => simp [passesGate] at h
  | res r =>
    cases r with
    | none => simp [passesGate] at h
    | some r =>
      simp [passesGate] at h
      simp [yieldsText, h.1]

/-- The cascade always returns a populated final result. -/
theorem cascade_returns (url : String) (o1 o2 o3 : StrategyOutcome) (page : Bool)
    (e1 e2 e3 : HtmlSource) (p : ProcessFn) :
    ∃ r, (extract_content_hybrid url o1 o2 o3 page e1 e2 e3 p).finalResult = some r := by
  by_cases h : (extract_content_hybrid url o1 o2 o3 page e1 e2 e3 p).extractionQuality = "failed"
  · exact ⟨sentinelResult, cascade_failed_final url o1 o2 o3 page e1 e2 e3 p h⟩
  · obtain ⟨r, env, -, hfin⟩ := cascade_accepted_final url o1 o2 o3 page e1 e2 e3 p h
    exact ⟨_, hfin⟩

/-- Errors recorded by the first strategy block survive to the cascade's
returned dictionary. -/
theorem cascade_errors_from_stage1 (url : String) (o1 o2 o3 : StrategyOutcome)
    (page : Bool) (e1 e2 e3 : HtmlSource) (p : ProcessFn) (x : String)
    (hp1 : passesGate o1 = false)
    (hx : x ∈ (tryStrategy "newspaper3k" "Newspaper3k" "high" o1 e1 p
                  { url := url }).1.errors) :
    x ∈ (extract_content_hybrid url o1 o2 o3 page e1 e2 e3 p).errors := by
  cases hp2 : passesGate o2 with
  | true =>
    rw [cascade_pass2 url o1 o2 o3 page e1 e2 e3 p hp1 hp2]
    exact tryStrategy_errors_mono _ _ _ _ _ _ _ _ hx
  | false =>
    cases hpage : page with
    | false =>
      rw [cascade_allfail_nopage url o1 o2 o3 false e1 e2 e3 p hp1 hp2 rfl]
      exact tryStrategy_errors_mono _ _ _ _ _ _ _ _ hx
    | true =>
      cases hp3 : passesGate o3 with
      | true =>
        rw [cascade_pass3 url o1 o2 o3 true e1 e2 e3 p hp1 hp2 rfl hp3]
        exact tryStrategy_errors_mono _ _ _ _ _ _ _ _
          (tryStrategy_errors_mono _ _ _ _ _ _ _ _ hx)
      | false =>
        rw [cascade_allfail_page url o1 o2 o3 true e1 e2 e3 p hp1 hp2 rfl hp3]
        exact tryStrategy_errors_mono _ _ _ _ _ _ _ _
          (tryStrategy_errors_mono _ _ _ _ _ _ _ _ hx)

/-- A 500-character text, for concrete witnesses. -/
def text500 : String := String.mk (List.replicate 500 'a')

/-- A 499-character text, for concrete witnesses. -/
def text499 : String := String.mk (List.replicate 499 'a')

/-- An image-processing function that downloads nothing, for concrete witnesses. -/
def procNone : ProcessFn := fun _ _ _ => none

/-- Claim C1: a strategy candidate with at least 500 characters of text is
accepted with the strategy's quality tier (newspaper3k `high`, readability
`medium`, playwright `low`); a candidate of at most 499 characters is not
accepted for that strategy and the cascade continues to the next strategy;
in particular 500 characters is accepted and 499 falls through. -/
theorem claim_C1_quality_gate (url : String) (o1 o2 o3 : StrategyOutcome)
    (page : Bool) (e1 e2 e3 : HtmlSource) (p : ProcessFn) :
    (∀ r : StratResult, o1 = .res (some r) → 500 ≤ r.text.length →
      (extract_content_hybrid url o1 o2 o3 page e1 e2 e3 p).extractionQuality = "high" ∧
      (extract_content_hybrid url o1 o2 o3 page e1 e2 e3 p).finalResult =
        some (enhanceWithComprehensiveImages r e1 p)) ∧
    (∀ r : StratResult, o1 = .res (some r) → r.text ≠ "" → r.text.length ≤ 499 →
      "newspaper3k" ∈ (extract_content_hybrid url o1 o2 o3 page e1 e2 e3 p).methodsFailed ∧
      "newspaper3k" ∉ (extract_content_hybrid url o1 o2 o3 page e1 e2 e3 p).methodsSuccessful ∧
      "readability" ∈ (extract_content_hybrid url o1 o2 o3 page e1 e2 e3 p).methodsTried) ∧
    (∀ r : StratResult, passesGate o1 = false → o2 = .res (some r) → 500 ≤ r.text.length →
      (extract_content_hybrid url o1 o2 o3 page e1 e2 e3 p).extractionQuality = "medium" ∧
      (extract_content_hybrid url o1 o2 o3 page e1 e2 e3 p).finalResult =
        some (enhanceWithComprehensiveImages r e2 p)) ∧
    (∀ r : StratResult, passesGate o1 = false → o2 = .res (some r) → r.text ≠ "" →
        r.text.length ≤ 499 →
      "readability" ∈ (extract_content_hybrid url o1 o2 o3 page e1 e2 e3 p).methodsFailed ∧
      "readability" ∉ (extract_content_hybrid url o1 o2 o3 page e1 e2 e3 p).methodsSuccessful ∧
      (page = true →
        "playwright" ∈ (extract_content_hybrid url o1 o2 o3 page e1 e2 e3 p).methodsTried)) ∧
    (∀ r : StratResult, passesGate o1 = false → passesGate o2 = false → page = true →
        o3 = .res (some r) → 500 ≤ r.text.length →
      (extract_content_hybrid url o1 o2 o3 page e1 e2 e3 p).extractionQuality = "low" ∧
      (extract_content_hybrid url o1 o2 o3 page e1 e2 e3 p).finalResult =
        some (enhanceWithComprehensiveImages r e3 p)) ∧
    (∀ r : StratResult, passesGate o1 = false → passesGate o2 = false → page = true →
        o3 = .res (some r) → r.text ≠ "" → r.text.length ≤ 499 →
      "playwright" ∈ (extract_content_hybrid url o1 o2 o3 page e1 e2 e3 p).methodsFailed ∧
      "playwright" ∉ (extract_content_hybrid url o1 o2 o3 page e1 e2 e3 p).methodsSuccessful ∧
      (extract_content_hybrid url o1 o2 o3 page e1 e2 e3 p).extractionQuality = "failed") := by
  refine ⟨?_, ?_, ?_, ?_, ?_, ?_⟩
  · intro r h hlen
    subst h
    have htext : r.text ≠ "" := text_ne_of_len r.text hlen
    have hp1 : passesGate (.res (some r)) = true := by simp [passesGate, htext, hlen]
    constructor
    · rw [cascade_quality]
      simp [hp1]
    · rw [cascade_pass1 url _ o2 o3 page e1 e2 e3 p hp1,
        tryStrategy_accept_eq _ _ _ r e1 p _ htext hlen]
  · intro r h htext hlen
    subst h
    have hp1 : passesGate (.res (some r)) = false := by
      simp [passesGate, htext]
      omega
    obtain ⟨ht, hs, hf⟩ := cascade_lists url _ o2 o3 page e1 e2 e3 p
    refine ⟨?_, ?_, ?_⟩
    · rw [hf]
      simp [hp1]
      split_ifs <;> simp
    · rw [hs]
      simp [hp1]
      split_ifs <;> simp
    · rw [ht]
      simp [hp1]
      split_ifs <;> simp
  · intro r hp1 h hlen
    subst h
    have htext : r.text ≠ "" := text_ne_of_len r.text hlen
    have hp2 : passesGate (.res (some r)) = true := by simp [passesGate, htext, hlen]
    constructor
    · rw [cascade_quality]
      simp [hp1, hp2]
    · rw [cascade_pass2 url o1 _ o3 page e1 e2 e3 p hp1 hp2,
        tryStrategy_accept_eq _ _ _ r e2 p _ htext hlen]
  · intro r hp1 h htext hlen
    subst h
    have hp2 : passesGate (.res (some r)) = false := by
      simp [passesGate, htext]
      omega
    obtain ⟨ht, hs, hf⟩ := cascade_lists url o1 _ o3 page e1 e2 e3 p
    refine ⟨?_, ?_, ?_⟩
    · rw [hf]
      simp [hp1, hp2]
      split_ifs <;> simp
    · rw [hs]
      simp [hp1, hp2]
    · intro hpage
      rw [ht]
      simp [hp1, hp2, hpage]
  · intro r hp1 hp2 hpage h hlen
    subst h
    subst hpage
    have htext : r.text ≠ "" := text_ne_of_len r.text hlen
    have hp3 : passesGate (.res (some r)) = true := by simp [passesGate, htext, hlen]
    constructor
    · rw [cascade_quality]
      simp [hp1, hp2, hp3]
    · rw [cascade_pass3 url o1 o2 _ true e1 e2 e3 p hp1 hp2 rfl hp3,
        tryStrategy_accept_eq _ _ _ r e3 p _ htext hlen]
  · intro r hp1 hp2 hpage h htext hlen
    subst h
    subst hpage
    have hp3 : passesGate (.res (some r)) = false := by
      simp [passesGate, htext]
      omega
    obtain ⟨ht, hs, hf⟩ := cascade_lists url o1 o2 _ true e1 e2 e3 p
    refine ⟨?_, ?_, ?_⟩
    · rw [hf]
      simp [hp1, hp2, hp3]
    · rw [hs]
      simp [hp1, hp2, hp3]
    · rw [cascade_quality]
      simp [hp1, hp2, hp3]

set_option maxRecDepth 4000 in
theorem claim_C1_quality_gate_witness :
    (extract_content_hybrid "u" (.res (some { text := text500 })) (.res none) (.res none)
        false .failure .failure .failure procNone).extractionQuality = "high" ∧
    "newspaper3k" ∈ (extract_content_hybrid "u" (.res (some { text := text499 }))
        (.res none) (.res none) false .failure .failure .failure procNone).methodsFailed ∧
    "readability" ∈ (extract_content_hybrid "u" (.res (some { text := text499 }))
        (.res none) (.res none) false .failure .failure .failure procNone).methodsTried :=
  ⟨((claim_C1_quality_gate "u" (.res (some { text := text500 })) (.res none) (.res none)
      false .failure .failure .failure procNone).1 { text := text500 } rfl (by decide)).1,
   (((claim_C1_quality_gate "u" (.res (some { text := text499 })) (.res none) (.res none)
      false .failure .failure .failure procNone).2.1 { text := text499 } rfl (by decide)
      (by decide))).1,
   (((claim_C1_quality_gate "u" (.res (some { text := text499 })) (.res none) (.res none)
      false .failure .failure .failure procNone).2.1 { text := text499 } rfl (by decide)
      (by decide))).2.2⟩

/-- Claim C2: the cascade tries newspaper3k, readability, playwright in that
fixed order and stops at the first strategy passing the 500-character gate:
when strategy 1 passes, strategies 2 and 3 are never invoked, and a later
strategy is invoked only when every earlier strategy failed or was
sub-threshold. -/
theorem claim_C2_cascade_order (url : String) (o1 o2 o3 : StrategyOutcome)
    (page : Bool) (e1 e2 e3 : HtmlSource) (p : ProcessFn) :
    (passesGate o1 = true →
      (extract_content_hybrid url o1 o2 o3 page e1 e2 e3 p).methodsTried =
        ["newspaper3k"]) ∧
    ("readability" ∈ (extract_content_hybrid url o1 o2 o3 page e1 e2 e3 p).methodsTried →
      "newspaper3k" ∈ (extract_content_hybrid url o1 o2 o3 page e1 e2 e3 p).methodsFailed) ∧
    ("playwright" ∈ (extract_content_hybrid url o1 o2 o3 page e1 e2 e3 p).methodsTried →
      "newspaper3k" ∈ (extract_content_hybrid url o1 o2 o3 page e1 e2 e3 p).methodsFailed ∧
      "readability" ∈ (extract_content_hybrid url o1 o2 o3 page e1 e2 e3 p).methodsFailed) := by
  obtain ⟨ht, hs, hf⟩ := cascade_lists url o1 o2 o3 page e1 e2 e3 p
  refine ⟨?_, ?_, ?_⟩
  · intro hp1
    rw [ht]
    simp [hp1]
  · intro hmem
    rw [ht] at hmem
    rw [hf]
    cases hp1 : passesGate o1 with
    | true => simp [hp1] at hmem
    | false =>
      simp [hp1]
      split_ifs <;> simp
  · intro hmem
    rw [ht] at hmem
    rw [hf]
    cases hp1 : passesGate o1 with
    | true => simp [hp1] at hmem
    | false =>
      cases hp2 : passesGate o2 with
      | true => simp [hp1, hp2] at hmem
      | false =>
        cases hpage : page with
        | false => simp [hp1, hp2, hpage] at hmem
        | true =>
          simp [hp1, hp2, hpage]
          split_ifs <;> simp

set_option maxRecDepth 4000 in
theorem claim_C2_cascade_order_witness :
    (extract_content_hybrid "u" (.res (some { text := text500 })) (.res none) (.res none)
        true .failure .failure .failure procNone).methodsTried = ["newspaper3k"] ∧
    "newspaper3k" ∈ (extract_content_hybrid "u" (.res none) (.res none) (.res none)
        true .failure .failure .failure procNone).methodsFailed ∧
    "readability" ∈ (extract_content_hybrid "u" (.res none) (.res none) (.res none)
        true .failure .failure .failure procNone).methodsFailed :=
  ⟨(claim_C2_cascade_order "u" (.res (some { text := text500 })) (.res none) (.res none)
      true .failure .failure .failure procNone).1 (by decide),
   ((claim_C2_cascade_order "u" (.res none) (.res none) (.res none)
      true .failure .failure .failure procNone).2.2 (by decide)).1,
   ((claim_C2_cascade_order "u" (.res none) (.res none) (.res none)
      true .failure .failure .failure procNone).2.2 (by decide)).2⟩

/-- Claim C3: the quality tier is `failed` iff the final result's text is the
sentinel `EXTRACTION_FAILED_ALL_METHODS` and its image list is empty; and for
a sentinel result the orchestrator writes only the extraction-log record (no
text file, image files, metadata or catalog row). -/
theorem claim_C3_failed_iff_sentinel (url : String) (o1 o2 o3 : StrategyOutcome)
    (page : Bool) (e1 e2 e3 : HtmlSource) (p : ProcessFn) (r : StratResult)
    (hfin : (extract_content_hybrid url o1 o2 o3 page e1 e2 e3 p).finalResult = some r) :
    (((extract_content_hybrid url o1 o2 o3 page e1 e2 e3 p).extractionQuality = "failed") ↔
      (r.text = "EXTRACTION_FAILED_ALL_METHODS" ∧ r.images = [])) ∧
    (r.text = "EXTRACTION_FAILED_ALL_METHODS" →
      handleBlogPersist (extract_content_hybrid url o1 o2 o3 page e1 e2 e3 p) =
        { wroteExtractionLog := true, wroteTextFile := false, wroteImages := false,
          wroteMetadata := false, wroteCatalogRow := false }) := by
  constructor
  · constructor
    · intro hq
      have hsent := cascade_failed_final url o1 o2 o3 page e1 e2 e3 p hq
      rw [hfin] at hsent
      have : r = sentinelResult := by
        injection hsent
      subst this
      exact ⟨rfl, rfl⟩
    · rintro ⟨hst, -⟩
      by_contra hq
      obtain ⟨r0, env, hlen, hfin'⟩ := cascade_accepted_final url o1 o2 o3 page e1 e2 e3 p hq
      rw [hfin] at hfin'
      have hr : r = enhanceWithComprehensiveImages r0 env p := by
        injection hfin'
      have htext : r.text = r0.text := by
        rw [hr, enhance_text]
      rw [htext] at hst
      rw [hst] at hlen
      simp [String.length] at hlen
  · intro hst
    simp [handleBlogPersist, hfin, hst]

theorem claim_C3_failed_iff_sentinel_witness :
    (((extract_content_hybrid "u" (.res none) (.res none) (.res none) false
        .failure .failure .failure procNone).extractionQuality = "failed") ↔
      (sentinelResult.text = "EXTRACTION_FAILED_ALL_METHODS" ∧
        sentinelResult.images = [])) ∧
    handleBlogPersist (extract_content_hybrid "u" (.res none) (.res none) (.res none) false
        .failure .failure .failure procNone) =
      { wroteExtractionLog := true, wroteTextFile := false, wroteImages := false,
        wroteMetadata := false, wroteCatalogRow := false } :=
  ⟨(claim_C3_failed_iff_sentinel "u" (.res none) (.res none) (.res none) false
      .failure .failure .failure procNone sentinelResult (by decide)).1,
   (claim_C3_failed_iff_sentinel "u" (.res none) (.res none) (.res none) false
      .failure .failure .failure procNone sentinelResult (by decide)).2 rfl⟩

/-- Claim C4: without the force flag a URL is skipped iff the ledger has an
entry whose quality tier is not `failed` and whose content length exceeds
100; a missing entry, a `failed` entry, or a content length at most 100
proceeds; with the force flag set the URL proceeds regardless of ledger
state. -/
theorem claim_C4_ledger_skip (force : Bool) (q : LedgerQuery) :
    (mainPageSkip force q = true ↔
      force = false ∧ ∃ e n, q = .found e ∧ e.extractionQuality ≠ "failed" ∧
        e.contentLength = some n ∧ 100 < n) ∧
    (force = true → mainPageSkip force q = false) := by
  constructor
  · cases force with
    | true =>
      simp [mainPageSkip]
    | false =>
      cases q with
      | err => simp [mainPageSkip, check_blog_extraction_status]
      | missing => simp [mainPageSkip, check_blog_extraction_status]
      | found e =>
        cases hlen : e.contentLength with
        | none =>
          simp [mainPageSkip, check_blog_extraction_status, pyTruthyInt, hlen]
        | some n =>
          simp [mainPageSkip, check_blog_extraction_status, pyTruthyInt, hlen]
          intro hn _
          omega
  · intro hforce
    subst hforce
    simp [mainPageSkip]

theorem claim_C4_ledger_skip_witness :
    mainPageSkip false (.found { extractionQuality := "high", contentLength := some 500 }) =
      true ∧
    mainPageSkip true (.found { extractionQuality := "high", contentLength := some 500 }) =
      false :=
  ⟨(claim_C4_ledger_skip false
      (.found { extractionQuality := "high", contentLength := some 500 })).1.mpr
      ⟨rfl, { extractionQuality := "high", contentLength := some 500 }, 500, rfl,
        by decide, rfl, by decide⟩,
   (claim_C4_ledger_skip true
      (.found { extractionQuality := "high", contentLength := some 500 })).2 rfl⟩

/-- Claim C5: the image-supplementation pass skips every page URL already in
the winning strategy's resolved image set (so it never creates a duplicate
record), and in the concrete scenario — resolved URLs `{A, B}`, page images
`{A, B, C}` — it adds exactly one new record, the one produced for `C`. -/
theorem claim_C5_image_dedup :
    (∀ (tags : List ImgTag) (res : StratResult) (p' : ProcessFn),
      (∀ t ∈ tags, ∀ s, t.src = some s → s ∈ existingUrls res.images) →
      (enhanceWithComprehensiveImages res (.fromPage tags) p').images = res.images) ∧
    (∀ (result : StratResult) (p : ProcessFn)
        (A B C altA altB altC : String) (rA rB rec : ImageRecord),
      rA.url = some A → rB.url = some B → result.images = [rA, rB] →
      A ≠ "" → B ≠ "" → C ≠ "" → C ≠ A → C ≠ B → p C 4 altC = some rec →
      (enhanceWithComprehensiveImages result
          (.fromPage [{ src := some A, alt := altA }, { src := some B, alt := altB },
                      { src := some C, alt := altC }]) p).images =
        result.images ++ [rec]) := by
  constructor
  · intro tags res p' h
    have hnil : newImages tags res.images p' = [] := by
      rw [newImages, List.filterMap_eq_nil_iff]
      rintro ⟨i, t⟩ hmem
      have ht : t ∈ tags := by
        have hg := List.mem_enum_iff_getElem?.mp hmem
        rw [List.getElem?_eq_some] at hg
        obtain ⟨hlt, hget⟩ := hg
        simp only [] at hget
        exact hget ▸ List.getElem_mem hlt
      cases hsrc : t.src with
      | none => simp
      | some s =>
        have hs := h t ht s hsrc
        simp [hsrc, hs]
    simp [enhanceWithComprehensiveImages, hnil]
  · intro result p A B C altA altB altC rA rB rec hA hB himages hAne hBne hCne hCA hCB hproc
    have hurls : existingUrls [rA, rB] = [A, B] := by
      simp [existingUrls, pyTruthy, hA, hB, hAne, hBne]
    simp [enhanceWithComprehensiveImages, newImages, List.enum, List.enumFrom,
      List.filterMap_cons, hurls, himages, hAne, hBne, hCne, hCA, hCB, hproc]

/-- A resolved image record for URL `imgA`, for concrete witnesses. -/
def recA : ImageRecord := { url := some "imgA" }

/-- A resolved image record for URL `imgB`, for concrete witnesses. -/
def recB : ImageRecord := { url := some "imgB" }

/-- The record the download step produces for URL `imgC`, for witnesses. -/
def recC : ImageRecord := { url := some "imgC", index := 4, altText := "altc" }

/-- An image-processing function that succeeds only on `imgC`. -/
def procC : ProcessFn := fun s i a =>
  if s == "imgC" then some { url := some s, index := i, altText := a } else none

theorem claim_C5_image_dedup_witness :
    (enhanceWithComprehensiveImages { text := "t", images := [recA, recB] }
        (.fromPage [{ src := some "imgA", alt := "" }, { src := some "imgB", alt := "" },
                    { src := some "imgC", alt := "altc" }]) procC).images =
      [recA, recB] ++ [recC] ∧
    (enhanceWithComprehensiveImages { text := "t", images := [recA] }
        (.fromPage []) procC).images = [recA] :=
  ⟨claim_C5_image_dedup.2 { text := "t", images := [recA, recB] } procC
      "imgA" "imgB" "imgC" "" "" "altc" recA recB recC rfl rfl rfl
      (by decide) (by decide) (by decide) (by decide) (by decide) rfl,
   claim_C5_image_dedup.1 [] { text := "t", images := [recA] } procC (by simp)⟩

/-- Claim C6 counterexample: a cascade in which every strategy returns no
content reaches the AllFailed/sentinel outcome without the image
supplementation pass ever running — it does not run "unconditionally after
every cascade outcome". -/
theorem claim_C6_counterexample :
    (extract_content_hybrid "u" (.res none) (.res none) (.res none) true
        (.fromPage []) (.fromPage []) (.fromPage []) procNone).extractionQuality =
      "failed" ∧
    (extract_content_hybrid "u" (.res none) (.res none) (.res none) true
        (.fromPage []) (.fromPage []) (.fromPage []) procNone).enhanceCalls = 0 := by
  constructor <;> decide

/-- Claim C6 (amended): the supplementation pass runs once for each strategy
block that executes and whose strategy returns non-empty text (it runs before
the 500-character gate, so sub-threshold text is also supplemented); it does
not run for strategy blocks returning no text, and in particular the
AllFailed/sentinel outcome — where no strategy returned text — runs it zero
times.  When it runs it uses the rendered page when available and otherwise a
plain 200-status fetch of the URL (`enhanceWithComprehensiveImages`). -/
theorem claim_C6_supplementation_per_text (url : String)
    (o1 o2 o3 : StrategyOutcome) (page : Bool) (e1 e2 e3 : HtmlSource)
    (p : ProcessFn) :
    (extract_content_hybrid url o1 o2 o3 page e1 e2 e3 p).enhanceCalls =
      (if yieldsText o1 then 1 else 0) +
      (if passesGate o1 then 0 else
        (if yieldsText o2 then 1 else 0) +
        (if passesGate o2 then 0 else
          if page then (if yieldsText o3 then 1 else 0) else 0)) ∧
    (yieldsText o1 = false → yieldsText o2 = false → yieldsText o3 = false →
      (extract_content_hybrid url o1 o2 o3 page e1 e2 e3 p).enhanceCalls = 0) := by
  constructor
  · exact cascade_calls url o1 o2 o3 page e1 e2 e3 p
  · intro h1 h2 h3
    have hp1 : passesGate o1 = false := by
      cases hp : passesGate o1 with
      | false => rfl
      | true => rw [yieldsText_of_passes o1 hp] at h1; cases h1
    rw [cascade_calls url o1 o2 o3 page e1 e2 e3 p, h1, h2, h3, hp1]
    simp

theorem claim_C6_supplementation_per_text_witness :
    (extract_content_hybrid "u" (.res none) (.exc "boom") (.res (some { text := "" }))
        true (.fromPage []) (.fromPage []) (.fromPage []) procNone).enhanceCalls = 0 :=
  (claim_C6_supplementation_per_text "u" (.res none) (.exc "boom")
      (.res (some { text := "" })) true (.fromPage []) (.fromPage [])
      (.fromPage []) procNone).2 rfl rfl (by decide)

/-- Claim C7: an exception inside any strategy block is caught, recorded as a
labelled string in the attempt's error list with the strategy marked tried
and failed, never accepted; the cascade always returns a populated result
dictionary; and after a first-strategy exception the cascade continues to the
next strategy. -/
theorem claim_C7_exceptions_contained :
    (∀ (name label quality msg : String) (env : HtmlSource) (p : ProcessFn)
        (er : ExtractionResults),
      tryStrategy name label quality (.exc msg) env p er =
        ({ er with
            methodsTried := er.methodsTried ++ [name],
            methodsFailed := er.methodsFailed ++ [name],
            errors := er.errors ++ [label ++ ": " ++ msg] }, false)) ∧
    (∀ (url : String) (o1 o2 o3 : StrategyOutcome) (page : Bool)
        (e1 e2 e3 : HtmlSource) (p : ProcessFn), ∃ r,
      (extract_content_hybrid url o1 o2 o3 page e1 e2 e3 p).finalResult = some r) ∧
    (∀ (url msg : String) (o2 o3 : StrategyOutcome) (page : Bool)
        (e1 e2 e3 : HtmlSource) (p : ProcessFn),
      ("Newspaper3k: " ++ msg) ∈
        (extract_content_hybrid url (.exc msg) o2 o3 page e1 e2 e3 p).errors ∧
      "newspaper3k" ∈
        (extract_content_hybrid url (.exc msg) o2 o3 page e1 e2 e3 p).methodsTried ∧
      "newspaper3k" ∈
        (extract_content_hybrid url (.exc msg) o2 o3 page e1 e2 e3 p).methodsFailed ∧
      "readability" ∈
        (extract_content_hybrid url (.exc msg) o2 o3 page e1 e2 e3 p).methodsTried) := by
  refine ⟨tryStrategy_exc_eq, cascade_returns, ?_⟩
  intro url msg o2 o3 page e1 e2 e3 p
  have hp1 : passesGate (.exc msg) = false := rfl
  obtain ⟨ht, hs, hf⟩ := cascade_lists url (.exc msg) o2 o3 page e1 e2 e3 p
  refine ⟨?_, ?_, ?_, ?_⟩
  · apply cascade_errors_from_stage1 url (.exc msg) o2 o3 page e1 e2 e3 p _ hp1
    rw [tryStrategy_exc_eq]
    simp
  · rw [ht]
    simp [hp1]
    split_ifs <;> simp
  · rw [hf]
    simp [hp1]
    split_ifs <;> simp
  · rw [ht]
    simp [hp1]
    split_ifs <;> simp

set_option maxRecDepth 8000 in
/-- Claim C8 counterexample: a 200-status download whose content-type claims
`application/pdf` but whose bytes do not start with `%PDF` is still saved and
still gets its `pdf_files` metadata row — the magic-byte check merely logs a
warning and never prevents acceptance (and for payloads of at most 1000 bytes
it is not even performed). -/
theorem claim_C8_counterexample :
    ((List.replicate 1500 65).take 4 ≠ pdfMagic ∧
      (handlePdfAttempt "https://x.com/doc.pdf"
        { status := 200, contentType := "application/pdf",
          payload := List.replicate 1500 65 }).warnedInvalidMagic = true ∧
      (handlePdfAttempt "https://x.com/doc.pdf"
        { status := 200, contentType := "application/pdf",
          payload := List.replicate 1500 65 }).wroteCatalogEntry = true) ∧
    ((List.replicate 100 65).take 4 ≠ pdfMagic ∧
      (handlePdfAttempt "https://x.com/doc.pdf"
        { status := 200, contentType := "application/pdf",
          payload := List.replicate 100 65 }).warnedInvalidMagic = false ∧
      (handlePdfAttempt "https://x.com/doc.pdf"
        { status := 200, contentType := "application/pdf",
          payload := List.replicate 100 65 }).wroteCatalogEntry = true) := by
  refine ⟨⟨?_, ?_, ?_⟩, ⟨?_, ?_, ?_⟩⟩ <;> decide

/-- Claim C8 (amended): on a 200-status download whose content-type contains
`application/pdf`, the payload is always saved and a `pdf_files` metadata row
is always written; the magic bytes are inspected only when the payload
exceeds 1000 bytes, and a mismatch results in a logged warning, not
rejection. -/
theorem claim_C8_pdf_magic_warning (url : String) (d : PdfDownload)
    (hs : d.status = 200)
    (hct : strContains d.contentType "application/pdf" = true) :
    (handlePdfAttempt url d).savedFile = true ∧
    (handlePdfAttempt url d).wroteCatalogEntry = true ∧
    ((handlePdfAttempt url d).warnedInvalidMagic = true ↔
      (1000 < d.payload.length ∧ d.payload.take 4 ≠ pdfMagic)) := by
  refine ⟨?_, ?_, ?_⟩ <;> simp [handlePdfAttempt, hs, hct]

theorem claim_C8_pdf_magic_warning_witness :
    (handlePdfAttempt "https://x.com/doc.pdf"
      { status := 200, contentType := "application/pdf",
        payload := [0x25, 0x50, 0x44, 0x46, 0] }).savedFile = true ∧
    (handlePdfAttempt "https://x.com/doc.pdf"
      { status := 200, contentType := "application/pdf",
        payload := [0x25, 0x50, 0x44, 0x46, 0] }).wroteCatalogEntry = true ∧
    (handlePdfAttempt "https://x.com/doc.pdf"
      { status := 200, contentType := "application/pdf",
        payload := [0x25, 0x50, 0x44, 0x46, 0] }).warnedInvalidMagic = false :=
  have h := claim_C8_pdf_magic_warning "https://x.com/doc.pdf"
    { status := 200, contentType := "application/pdf",
      payload := [0x25, 0x50, 0x44, 0x46, 0] } rfl (by decide)
  ⟨h.1, h.2.1, by
    cases hw : (handlePdfAttempt "https://x.com/doc.pdf"
      { status := 200, contentType := "application/pdf",
        payload := [0x25, 0x50, 0x44, 0x46, 0] }).warnedInvalidMagic
    · rfl
    · exact absurd (h.2.2.mp hw) (by decide)⟩

theorem bytesToHexChars_length (bs : List Nat) :
    (MD5.bytesToHexChars bs).length = 2 * bs.length := by
  induction bs with
  | nil => rfl
  | cons b bs ih =>
    simp [MD5.bytesToHexChars, ih]
    omega

theorem digestBytes_length (msg : List Nat) : (MD5.digestBytes msg).length = 16 := by
  simp [MD5.digestBytes, MD5.wordBytesLE]

theorem hexdigest_length (msg : List Nat) : (MD5.hexdigest msg).length = 32 := by
  rw [MD5.hexdigest, bytesToHexChars_length, digestBytes_length]

/-- Claim C9: the blog id is a deterministic pure function of `(url, title)`
— any two invocations agree — and is always exactly 12 characters long, for
both implementations. -/
theorem claim_C9_blog_id_deterministic (url title : String) :
    generate_blog_id url title = generate_blog_id url title ∧
    (generate_blog_id url title).length = 12 ∧
    HybridContentExtractor.generate_blog_id url title =
      HybridContentExtractor.generate_blog_id url title ∧
    (HybridContentExtractor.generate_blog_id url title).length = 12 := by
  have hlen : (generate_blog_id url title).length = 12 := by
    show (List.take 12 (MD5.hexdigest (strToUtf8 (url ++ "_" ++ title)))).length = 12
    rw [List.length_take, hexdigest_length]
    rfl
  exact ⟨rfl, hlen, rfl, hlen⟩

/-- Claim C10: the module-level `generate_blog_id` in routes.py and
`HybridContentExtractor.generate_blog_id` in hybrid_extractor.py compute the
same function — the first 12 hex characters of the MD5 digest of the UTF-8
encoding of `url + "_" + title` — so ids minted by the orchestrator and the
extractor never diverge. -/
theorem claim_C10_blog_id_agree (url title : String) :
    generate_blog_id url title = HybridContentExtractor.generate_blog_id url title ∧
    generate_blog_id url title =
      String.mk ((MD5.hexdigest (strToUtf8 (url ++ "_" ++ title))).take 12) :=
  ⟨rfl, rfl⟩
